import Mathlib

/-!
Shallow embedding of the classification-to-routing core of jassist-assist:

* `src/jassist/router/router_cli.py` — `parse_classification_result`,
  `route_to_module` (the module-mapping scan and the dynamic dispatch).
* `src/jassist/api_assistants_cliente/api_assistants_cliente.py` —
  `OpenAIAssistantClient.get_or_create_thread` and
  `OpenAIAssistantClient.run_assistant`.

Python strings are Lean `String`s; Python dicts (insertion ordered) are
association lists updated in place; remote OpenAI calls are parameters of an
explicit environment record; machine time advances only through the modelled
`time.sleep` calls of the polling loop, measured in whole time units.
-/

/-! ## Python string primitives

Each helper mirrors the behaviour of the corresponding `str` method on the
inputs the embedded functions feed it (ASCII case folding; the ASCII whitespace
set of `str.strip`). -/

/-- Whitespace characters recognised by `str.strip()` (ASCII subset). -/
def isPySpace (c : Char) : Bool :=
  c == ' ' || c == '\t' || c == '\n' || c == '\r' || c == '\x0b' || c == '\x0c'

/-- Python `s.strip()`. -/
def pyStrip (s : String) : String :=
  String.mk (((s.toList.dropWhile isPySpace).reverse.dropWhile isPySpace).reverse)

/-- Python `s.lower()` (ASCII case folding, as used on the router's keys). -/
def pyLower (s : String) : String :=
  String.mk (s.toList.map Char.toLower)

/-- Does `needle` occur as a contiguous sublist of `hay`?  (Python `in`.) -/
def listContainsSub (needle : List Char) : List Char → Bool
  | [] => needle.isPrefixOf []
  | c :: t => needle.isPrefixOf (c :: t) || listContainsSub needle t

/-- Python `needle in hay` on strings. -/
def pyInStr (needle hay : String) : Bool :=
  listContainsSub needle.toList hay.toList

/-- Index of the first occurrence of `needle` in `hay`, if any. -/
def listFindSub (needle : List Char) : List Char → Option Nat
  | [] => if needle.isPrefixOf ([] : List Char) then some 0 else none
  | c :: t =>
    if needle.isPrefixOf (c :: t) then some 0
    else (listFindSub needle t).map Nat.succ

/-- Python `s.find(sub, start)`: first index `≥ start` of `sub` in `s`, else `-1`. -/
def pyFind (s sub : String) (start : Nat) : Int :=
  match listFindSub sub.toList (s.toList.drop start) with
  | some k => ((start + k : Nat) : Int)
  | none => -1

/-- Python slice `s[a:b]` for `0 ≤ a ≤ b`. -/
def pySlice (s : String) (a b : Nat) : String :=
  String.mk ((s.toList.drop a).take (b - a))

/-- Python `s.split('\n')`: split on every newline, keeping empty pieces
(`"".split('\n') == [""]`). -/
def splitNewlinesAux : List Char → List Char → List String
  | [], acc => [String.mk acc.reverse]
  | c :: t, acc =>
    if c == '\n' then String.mk acc.reverse :: splitNewlinesAux t []
    else splitNewlinesAux t (c :: acc)

/-- Python `s.split('\n')`. -/
def pySplitNewlines (s : String) : List String :=
  splitNewlinesAux s.toList []

/-- Python `line.split(':', 1)`: the part before the first colon and the rest. -/
def splitOnFirstColon (line : String) : String × String :=
  let cs := line.toList
  (String.mk (cs.takeWhile (fun c => c != ':')),
   String.mk ((cs.dropWhile (fun c => c != ':')).drop 1))

/-! ## Insertion-ordered dictionaries

Python dicts preserve insertion order and overwrite in place; both the module
config and the parsed classification mappings rely on that. -/

/-- First binding of `k`, if any (`dict.get`). -/
def assocGet {α : Type} (d : List (String × α)) (k : String) : Option α :=
  (d.find? (fun p => p.1 == k)).map (·.2)

/-- `d[k] = v`: overwrite in place if present, else append (dict assignment). -/
def assocSet {α : Type} : List (String × α) → String → α → List (String × α)
  | [], k, v => [(k, v)]
  | (k', v') :: t, k, v =>
    if k' == k then (k', v) :: t else (k', v') :: assocSet t k v

/-! ## JSON values and `json.loads`

`json.loads` is modelled on the JSON subset without floating-point literals
(objects, arrays, strings with the standard escapes, integers, booleans,
null); on that subset the model accepts exactly what CPython accepts — leading
zeros, raw control characters in strings, lone surrogates and trailing data are
rejected.  Inputs outside the subset make the model parser fail, which only
narrows the hypotheses of the JSON-shaped theorems below. -/

inductive Json where
  | null
  | bool (b : Bool)
  | num (n : Int)
  | str (s : String)
  | arr (elems : List Json)
  | obj (fields : List (String × Json))

/-- JSON insignificant whitespace. -/
def isJsonWs (c : Char) : Bool :=
  c == ' ' || c == '\t' || c == '\n' || c == '\r'

/-- Hex digit value, if `c` is a hex digit. -/
def hexDigitVal (c : Char) : Option Nat :=
  if '0' ≤ c ∧ c ≤ '9' then some (c.toNat - 48)
  else if 'a' ≤ c ∧ c ≤ 'f' then some (c.toNat - 87)
  else if 'A' ≤ c ∧ c ≤ 'F' then some (c.toNat - 55)
  else none

/-- Parse the body of a JSON string (opening quote already consumed). -/
def parseJsonStringBody (fuel : Nat) (cs : List Char) (acc : List Char) :
    Option (String × List Char) :=
  match fuel with
  | 0 => none
  | fuel + 1 =>
    match cs with
    | [] => none
    | '"' :: rest => some (String.mk acc.reverse, rest)
    | '\\' :: e :: rest =>
      match e with
      | '"' => parseJsonStringBody fuel rest ('"' :: acc)
      | '\\' => parseJsonStringBody fuel rest ('\\' :: acc)
      | '/' => parseJsonStringBody fuel rest ('/' :: acc)
      | 'n' => parseJsonStringBody fuel rest ('\n' :: acc)
      | 't' => parseJsonStringBody fuel rest ('\t' :: acc)
      | 'r' => parseJsonStringBody fuel rest ('\r' :: acc)
      | 'b' => parseJsonStringBody fuel rest ('\x08' :: acc)
      | 'f' => parseJsonStringBody fuel rest ('\x0c' :: acc)
      | 'u' =>
        match rest with
        | h1 :: h2 :: h3 :: h4 :: rest' =>
          match hexDigitVal h1, hexDigitVal h2, hexDigitVal h3, hexDigitVal h4 with
          | some a, some b, some c, some d =>
            let code := ((a * 16 + b) * 16 + c) * 16 + d
            -- surrogate pairs are not modelled: conservatively reject them
            if 0xd800 ≤ code ∧ code ≤ 0xdfff then none
            else parseJsonStringBody fuel rest' (Char.ofNat code :: acc)
          | _, _, _, _ => none
        | _ => none
      | _ => none
    | c :: rest =>
      -- strict mode: raw control characters are invalid inside strings
      if c.toNat < 0x20 then none
      else parseJsonStringBody fuel rest (c :: acc)

/-- Parse a JSON integer literal starting at `cs` (no fraction/exponent). -/
def parseJsonNumber (cs : List Char) : Option (Json × List Char) :=
  let negAndRest : Bool × List Char :=
    match cs with
    | '-' :: r => (true, r)
    | _ => (false, cs)
  let ds := negAndRest.2.takeWhile Char.isDigit
  let rest := negAndRest.2.dropWhile Char.isDigit
  if ds.isEmpty then none
  else if ds.length > 1 ∧ ds.head? = some '0' then none
  else
    match rest with
    | '.' :: _ => none
    | 'e' :: _ => none
    | 'E' :: _ => none
    | _ =>
      let n : Nat := ds.foldl (fun a c => a * 10 + (c.toNat - 48)) 0
      some (Json.num (if negAndRest.1 then -(n : Int) else (n : Int)), rest)

mutual

/-- Parse one JSON value (after optional leading whitespace). -/
def parseJsonValue : Nat → List Char → Option (Json × List Char)
  | 0, _ => none
  | fuel + 1, cs =>
    match cs.dropWhile isJsonWs with
    | [] => none
    | c :: rest =>
      if c == '"' then
        (parseJsonStringBody (rest.length + 1) rest []).map
          (fun p => (Json.str p.1, p.2))
      else if c == '[' then
        match rest.dropWhile isJsonWs with
        | ']' :: r => some (Json.arr [], r)
        | _ => parseJsonElems fuel rest []
      else if c == '{' then
        match rest.dropWhile isJsonWs with
        | '}' :: r => some (Json.obj [], r)
        | _ => parseJsonFields fuel rest []
      else if c == 'n' then
        match rest with
        | 'u' :: 'l' :: 'l' :: r => some (Json.null, r)
        | _ => none
      else if c == 't' then
        match rest with
        | 'r' :: 'u' :: 'e' :: r => some (Json.bool true, r)
        | _ => none
      else if c == 'f' then
        match rest with
        | 'a' :: 'l' :: 's' :: 'e' :: r => some (Json.bool false, r)
        | _ => none
      else if c == '-' || c.isDigit then parseJsonNumber (c :: rest)
      else none

/-- Parse the elements of a non-empty JSON array (opening `[` consumed). -/
def parseJsonElems : Nat → List Char → List Json → Option (Json × List Char)
  | 0, _, _ => none
  | fuel + 1, cs, acc =>
    match parseJsonValue fuel cs with
    | none => none
    | some (v, rest) =>
      match rest.dropWhile isJsonWs with
      | ',' :: r => parseJsonElems fuel r (v :: acc)
      | ']' :: r => some (Json.arr (v :: acc).reverse, r)
      | _ => none

/-- Parse the fields of a non-empty JSON object (opening `{` consumed).
Duplicate keys overwrite in place, as in a Python dict. -/
def parseJsonFields : Nat → List Char → List (String × Json) →
    Option (Json × List Char)
  | 0, _, _ => none
  | fuel + 1, cs, acc =>
    match cs.dropWhile isJsonWs with
    | '"' :: rest =>
      match parseJsonStringBody (rest.length + 1) rest [] with
      | none => none
      | some (k, rest1) =>
        match rest1.dropWhile isJsonWs with
        | ':' :: rest2 =>
          match parseJsonValue fuel rest2 with
          | none => none
          | some (v, rest3) =>
            let acc := assocSet acc k v
            match rest3.dropWhile isJsonWs with
            | ',' :: r => parseJsonFields fuel r acc
            | '}' :: r => some (Json.obj acc, r)
            | _ => none
        | _ => none
    | _ => none

end

/-- Model of `json.loads` (on the subset described above): a full parse with
nothing but whitespace left over. -/
def json_loads (s : String) : Option Json :=
  match parseJsonValue (2 * s.length + 4) s.toList with
  | some (v, rest) => if (rest.dropWhile isJsonWs).isEmpty then some v else none
  | none => none

/-! ## `parse_classification_result` (src/jassist/router/router_cli.py, lines 62–145)

The Python function returns either a dict, the raw structure produced by
`json.loads`, or `None`; all are represented as `Option Json`.  The body is
guarded by a `try`/`except` that returns `None`: the exception paths that can
fire inside it (the `TypeError`s raised by `in` / subscripting on non-dict
data) are mapped to `none` at the spot where they occur. -/

/-- Lines 77–86: if the input contains a markdown ```` ```json ```` fence,
replace it by the fenced content, stripped. -/
def strip_json_fence (result : String) : String :=
  if pyInStr "```json" result then
    let start_pos : Int := pyFind result "```json" 0 + 7
    let end_pos : Int := pyFind result "```" start_pos.toNat
    if start_pos > 6 ∧ end_pos > start_pos then
      pyStrip (pySlice result start_pos.toNat end_pos.toNat)
    else result
  else result

/-- Lines 120–126: split each line at its first colon into a stripped,
lowercased key and a stripped value, collected into a dict. -/
def line_data (result : String) : List (String × String) :=
  (pySplitNewlines (pyStrip result)).foldl
    (fun d line =>
      if pyInStr ":" line then
        let kv := splitOnFirstColon line
        assocSet d (pyLower (pyStrip kv.1)) (pyStrip kv.2)
      else d)
    []

/-- Line 129: the fixed priority list of category-bearing keys. -/
def category_fields : List String :=
  ["category", "type", "classificação", "categoria", "tipo"]

/-- Lines 129–133: copy the first present category-bearing key into
`category` unless `category` is already present, then stop (the `break`). -/
def apply_category_priority (data : List (String × String)) :
    List (String × String) :=
  match category_fields.find? (fun f => (assocGet data f).isSome) with
  | some f =>
    if (assocGet data "category").isSome then data
    else assocSet data "category" ((assocGet data f).getD "")
  | none => data

/-- Lines 119–140: the plain-text fallback once JSON parsing has failed.
`if not data.get('category')` treats a missing or empty category as falsy
and yields `None`. -/
def parse_line_text (result : String) : Option Json :=
  let data := apply_category_priority (line_data result)
  match assocGet data "category" with
  | none => none
  | some v =>
    if v == "" then none
    else some (Json.obj (data.map (fun p => (p.1, Json.str p.2))))

/-- Is some element of `xs` the JSON string `s`?  (`s in list` via `__eq__`.) -/
def jsonListHasStr (xs : List Json) (s : String) : Bool :=
  xs.any (fun j => match j with | Json.str t => t == s | _ => false)

/-- Lines 89–114: the JSON branch, applied to the structure `json.loads`
produced.  Python's `in` tests keys on a dict, membership on a list and
substring containment on a string, and raises `TypeError` otherwise;
subscripting a list or a string with a string key raises `TypeError`; every
such `TypeError` reaches the enclosing `except` and becomes `None`. -/
def classify_json_data (data : Json) : Option Json :=
  match data with
  | Json.obj fields =>
    match assocGet fields "classifications" with
    | some (Json.arr (entry :: _)) =>
      -- `"classifications" in data`, value is a list, and `len > 0`
      match entry with
      | Json.obj efields =>
        match assocGet efields "category" with
        | some c =>
          some (Json.obj [("category", c),
                          ("text", (assocGet efields "text").getD (Json.str "")),
                          ("original_data", data)])
        | none => some data    -- warning logged, falls through to `return data`
      | Json.str s =>
        -- `"category" in entry` is a substring test; on a hit,
        -- `entry["category"]` raises TypeError, hence None overall
        if pyInStr "category" s then none else some data
      | Json.arr xs =>
        if jsonListHasStr xs "category" then none else some data
      | _ => none              -- `in` on int/bool/null raises TypeError
    | _ => some data           -- key absent, not a list, or empty list
  | Json.arr xs =>
    if jsonListHasStr xs "classifications" then none else some data
  | Json.str s =>
    if pyInStr "classifications" s then none else some data
  | _ => none                  -- `in` on int/bool/null raises TypeError

/-- Lines 62–145: `parse_classification_result`. -/
def parse_classification_result (result : String) : Option Json :=
  let result1 := strip_json_fence result
  match json_loads result1 with
  | some data => classify_json_data data
  | none => parse_line_text result1

/-! ## `route_to_module` (src/jassist/router/router_cli.py, lines 147–211)

The module mapping and the default module come from `load_config()`; they are
parameters here.  Importing the module, resolving the function and calling the
handler depend on the ambient Python environment, abstracted as a map from the
configured module path to one of four outcomes, mirroring the three `except`
clauses and the normal return. -/

/-- Line 164: `category.lower().strip()`. -/
def normalized_category (category : String) : String :=
  pyStrip (pyLower category)

/-- Line 169: `key.lower() in normalized_category or normalized_category in
key.lower()`. -/
def mapping_entry_matches (category : String) (kp : String × String) : Bool :=
  pyInStr (pyLower kp.1) (normalized_category category) ||
  pyInStr (normalized_category category) (pyLower kp.1)

/-- Lines 167–172: the first mapping entry whose lowercased key contains, or
is contained in, the normalized category. -/
def find_module_path (module_mapping : List (String × String))
    (category : String) : Option String :=
  (module_mapping.find? (mapping_entry_matches category)).map (·.2)

/-- Lines 167–177: the scan above followed by the default-module fallback
(`if not module_path and default_module`); Python falsiness makes the
missing path and the empty path both fall through. -/
def select_module_path (module_mapping : List (String × String))
    (default_module : Option String) (category : String) : Option String :=
  let mp := find_module_path module_mapping category
  if (mp.getD "") == "" && (default_module.getD "") != "" then default_module
  else mp

/-- Outcome of resolving and invoking the handler named by a module path:
the three `except` clauses of lines 203–211 and the normal return. -/
inductive HandlerOutcome where
  | importError            -- `importlib.import_module` raised ImportError
  | attrError              -- the function is absent (AttributeError)
  | raises                 -- the handler raised some other exception
  | returns (result : Bool)  -- the handler returned (its value is ignored)

/-- Lines 147–211: `route_to_module`.  `handlers` abstracts the Python
runtime: what importing/resolving/calling the configured path does.  Every
exception branch yields `False`; a handler that returns yields `True`
regardless of its return value. -/
def route_to_module (handlers : String → HandlerOutcome)
    (module_mapping : List (String × String)) (default_module : Option String)
    (category : String) : Bool :=
  match select_module_path module_mapping default_module category with
  | none => false              -- line 181: no mapping, no default
  | some p =>
    if p == "" then false      -- empty path is falsy at line 179 as well
    else
      match handlers p with
      | HandlerOutcome.returns _ => true
      | _ => false

/-! ## `get_or_create_thread`
(src/jassist/api_assistants_cliente/api_assistants_cliente.py, lines 260–328)

The remote service and the wall clock are an explicit environment.
`datetime.fromisoformat` is modelled as a partial map to a timestamp in
seconds (`none` = `ValueError`); `(datetime.now() - created_at).days` is the
floor division of the difference by 86400, which is what `timedelta.days`
computes.  `threads.create()` is modelled as always succeeding and returning
`created_thread_id` (its failure would propagate out of the Python function,
a path none of the claims touches). -/

structure ThreadEnv where
  /-- Does `client.beta.threads.retrieve(tid)` succeed? -/
  retrieve_ok : String → Bool
  /-- The id of the thread `client.beta.threads.create()` returns. -/
  created_thread_id : String
  /-- `datetime.fromisoformat`, partial (in seconds since the epoch). -/
  fromisoformat : String → Option Int
  /-- `datetime.now()` in seconds since the epoch. -/
  now : Int
  /-- `datetime.now().isoformat()`. -/
  now_iso : String

/-- Line 88 / line 276: `assistant_name.lower().replace(' ', '_')`. -/
def normalize_assistant_name (name : String) : String :=
  String.mk (name.toList.map (fun c => if c == ' ' then '_' else c.toLower))

/-- Line 276: the config key of a thread slot. -/
def full_thread_key (assistant_name thread_key : String) : String :=
  "thread_id_" ++ normalize_assistant_name assistant_name ++ "_" ++ thread_key

/-- Lines 279–301: the `thread_needs_recreation` flag.  An absent or falsy
stored id, a failed remote retrieve, an unparseable creation timestamp, or an
age in days exceeding `retention_days` all force recreation; a verifying
thread with no stored timestamp is reused. -/
def thread_needs_recreation (env : ThreadEnv) (config : List (String × String))
    (fkey ckey : String) (retention_days : Int) : Bool :=
  match assocGet config fkey with
  | none => true
  | some tid =>
    if tid == "" then true
    else if env.retrieve_ok tid then
      match assocGet config ckey with
      | none => false
      | some s =>
        match env.fromisoformat s with
        | none => true
        | some created_at =>
          decide (Int.fdiv (env.now - created_at) 86400 > retention_days)
    else true

/-- What `get_or_create_thread` leaves behind: the returned id, the in-memory
config dict, and whether `_save_config` was invoked on the module's backing
file. -/
structure ThreadResult where
  thread_id : String
  config : List (String × String)
  wrote_config_file : Bool

/-- Lines 260–328: `get_or_create_thread`. -/
def get_or_create_thread (env : ThreadEnv) (assistant_name : String)
    (module_name : Option String) (config : List (String × String))
    (thread_key : String) (retention_days : Int) (save_to_config : Bool) :
    ThreadResult :=
  let fkey := full_thread_key assistant_name thread_key
  let ckey := fkey ++ "_created_at"
  if thread_needs_recreation env config fkey ckey retention_days then
    let tid := env.created_thread_id
    if save_to_config then
      { thread_id := tid
        config := assocSet (assocSet config fkey tid) ckey env.now_iso
        wrote_config_file := module_name.isSome }
    else
      { thread_id := tid, config := config, wrote_config_file := false }
  else
    { thread_id := (assocGet config fkey).getD "", config := config
      wrote_config_file := false }

/-! ## `run_assistant`
(src/jassist/api_assistants_cliente/api_assistants_cliente.py, lines 330–443)

The claims exercise the path where `thread_id` and `assistant_id` are given
(otherwise the function first delegates to `get_or_create_assistant` /
`get_or_create_thread`).  The remote service is an environment indexed by the
attempt number; wall-clock time within one attempt advances only through
`time.sleep(poll_interval)`, so after `i` sleeps `time.time() - start_time`
is `i * poll_interval`.  A `poll_interval` of at least one time unit makes
the fuel bound `timeout + 1` unreachable, exactly matching the Python loop
(with `poll_interval = 0` the Python loop would spin without advancing
modelled time). -/

/-- One content part of a listed message: `some v` when the part has a
`text` attribute (whose object is truthy) with `text.value = v`. -/
abbrev ContentPart := Option String

structure ThreadMessage where
  role : String
  content : List ContentPart

/-- Lines 420–422: the inner loop over one message's content parts returns
the first text-bearing part. -/
def first_text_part : List ContentPart → Option String
  | [] => none
  | some v :: _ => some v
  | none :: rest => first_text_part rest

/-- Lines 416–425: scan the listed messages in the order the endpoint
returned them; the first text part of an assistant-authored message is the
response (an assistant message whose parts carry no text is skipped). -/
def extract_assistant_response : List ThreadMessage → Option String
  | [] => none
  | m :: rest =>
    if m.role == "assistant" && !m.content.isEmpty then
      match first_text_part m.content with
      | some v => some v
      | none => extract_assistant_response rest
    else extract_assistant_response rest

/-- Line 401: the terminal non-success statuses. -/
def terminal_failure_statuses : List String := ["failed", "cancelled", "expired"]

/-- How one polling loop ends. -/
inductive PollOutcome where
  | completed
  | terminalError (status : String)  -- raises RunError inside the attempt
  | timedOut                         -- raises TimeoutError inside the attempt
deriving DecidableEq, Repr

/-- Lines 391–412: poll `runs.retrieve` every `poll_interval` until a
terminal status or until `i * poll_interval` reaches `timeout`.  The status
at the `i`-th poll of the attempt is `status i`. -/
def poll_phase (status : Nat → String) (poll_interval timeout : Nat) :
    Nat → Nat → PollOutcome
  | _, 0 => PollOutcome.timedOut
  | i, fuel + 1 =>
    if i * poll_interval < timeout then
      let s := status i
      if s == "completed" then PollOutcome.completed
      else if terminal_failure_statuses.contains s then
        PollOutcome.terminalError s
      else poll_phase status poll_interval timeout (i + 1) fuel
    else PollOutcome.timedOut

/-- The exceptions one run attempt can raise (lines 383–425): a `RunError`
from a terminal failure status, the `TimeoutError` from the deadline check,
or any other exception (e.g. from `runs.create`). -/
inductive AttemptError where
  | runErr (status : String)
  | timeoutErr (timeout : Nat)
  | exc (msg : String)
deriving DecidableEq, Repr

/-- Per-attempt behaviour of the remote service. -/
structure RunEnv where
  /-- Does `threads.messages.create` succeed? -/
  message_create_ok : Bool
  /-- Does `threads.runs.create` succeed on the given attempt? -/
  run_create_ok : Nat → Bool
  /-- Status string returned by the `i`-th `runs.retrieve` of an attempt. -/
  run_status : Nat → Nat → String
  /-- What `threads.messages.list` returns on that attempt. -/
  thread_messages : Nat → List ThreadMessage

/-- Lines 383–425: one iteration of the retry loop — start a run, poll it,
and on completion fetch and extract the response. -/
def run_attempt (env : RunEnv) (attempt poll_interval timeout : Nat) :
    Except AttemptError (Option String) :=
  if env.run_create_ok attempt then
    match poll_phase (env.run_status attempt) poll_interval timeout 0
        (timeout + 1) with
    | PollOutcome.completed =>
      Except.ok (extract_assistant_response (env.thread_messages attempt))
    | PollOutcome.terminalError s =>
      Except.error (AttemptError.runErr s)
    | PollOutcome.timedOut =>
      Except.error (AttemptError.timeoutErr timeout)
  else Except.error (AttemptError.exc "run create failed")

/-- The remote calls `run_assistant` issues, with the ids it passes
(the `runs.retrieve` polls and `time.sleep`s are not recorded — no claim
concerns them). -/
inductive RunAction where
  | msgCreate (thread_id prompt : String)
  | runCreate (thread_id assistant_id : String)
  | msgList (thread_id : String)
deriving DecidableEq, Repr

/-- What `run_assistant` does from its caller's point of view.
`timeoutError` is what a propagating `TimeoutError` would look like; the
constructor exists so that the spec's claim about it is statable. -/
inductive RunResult where
  | success (response : Option String)
  | threadError (msg : String)             -- message post failed, not retried
  | runErrorAllFailed (last : AttemptError)  -- line 441
  | timeoutError (timeout : Nat)
deriving DecidableEq, Repr

/-- Lines 379–443: `while retries <= max_retries`, each iteration running one
attempt; any of the three named errors (and any other exception) is caught,
recorded as `last_error` and retried; after the last attempt the recorded
error is wrapped in `RunError("All run attempts failed: ...")`. -/
def run_retry_loop (env : RunEnv) (thread_id assistant_id : String)
    (poll_interval timeout : Nat) :
    Nat → Nat → Option AttemptError → RunResult × List RunAction
  | _, 0, last =>
    match last with
    | some e => (RunResult.runErrorAllFailed e, [])
    | none => (RunResult.success none, [])
  | attempt, fuel + 1, _ =>
    match run_attempt env attempt poll_interval timeout with
    | Except.ok r =>
      (RunResult.success r,
       [RunAction.runCreate thread_id assistant_id,
        RunAction.msgList thread_id])
    | Except.error e =>
      let next := run_retry_loop env thread_id assistant_id poll_interval
        timeout (attempt + 1) fuel (some e)
      (next.1, RunAction.runCreate thread_id assistant_id :: next.2)

/-- Lines 330–443: `run_assistant` with explicit `thread_id` and
`assistant_id`.  The user message is posted once, before the retry loop; a
failed post raises `ThreadError` immediately and no run is started. -/
def run_assistant (env : RunEnv) (prompt thread_id assistant_id : String)
    (max_retries poll_interval timeout : Nat) : RunResult × List RunAction :=
  if env.message_create_ok then
    let r := run_retry_loop env thread_id assistant_id poll_interval timeout 0
      (max_retries + 1) none
    (r.1, RunAction.msgCreate thread_id prompt :: r.2)
  else
    (RunResult.threadError "Error creating message in thread",
     [RunAction.msgCreate thread_id prompt])

/-! ## Helper lemmas -/

theorem isPrefixOf_self_eq_true (l : List Char) : l.isPrefixOf l = true := by
  induction l with
  | nil => rfl
  | cons c t ih => simp [List.isPrefixOf, ih]

theorem listContainsSub_self_eq_true (l : List Char) :
    listContainsSub l l = true := by
  cases l with
  | nil => rfl
  | cons c t => simp [listContainsSub, isPrefixOf_self_eq_true]

theorem pyInStr_self (s : String) : pyInStr s s = true :=
  listContainsSub_self_eq_true s.toList

theorem listContainsSub_nil_eq_true (l : List Char) :
    listContainsSub [] l = true := by
  cases l with
  | nil => rfl
  | cons c t => simp [listContainsSub, List.isPrefixOf]

theorem assocGet_assocSet_same {α : Type} (d : List (String × α)) (k : String)
    (v : α) : assocGet (assocSet d k v) k = some v := by
  induction d with
  | nil => simp [assocSet, assocGet]
  | cons p t ih =>
    by_cases h : p.1 == k
    · simp [assocSet, assocGet, h]
    · simp only [assocSet, h, if_false, Bool.false_eq_true]
      simpa [assocGet, List.find?, h] using ih

/-! ## Claims about the router -/

/-- C1 (counterexample): `route_to_module` has no exact-match phase.  With the
mapping `{"agen": p1, "agenda": p2}` and category `"agenda"`, the normalized
category equals the key `"agenda"`, yet the earlier key `"agen"` wins by the
substring rule, so the selected path is `p1`, not `p2`. -/
theorem c1_exact_match_phase_missing_counterexample :
    normalized_category "agenda" = "agenda" ∧
    find_module_path [("agen", "p1"), ("agenda", "p2")] "agenda" = some "p1" ∧
    find_module_path [("agen", "p1"), ("agenda", "p2")] "agenda" ≠ some "p2" := by
  refine ⟨rfl, rfl, ?_⟩
  intro h
  rw [show find_module_path [("agen", "p1"), ("agenda", "p2")] "agenda"
      = some "p1" from rfl] at h
  simp at h

/-- C1 (amended): `route_to_module` performs only substring scanning in the
mapping's iteration order; a key equal to the normalized category is selected
exactly when no earlier entry already matches by the substring rule.  In
particular, in the spec's example `{"agenda": H1, "contacto": H2}` with
category `"AGENDA "`, the first entry matches and H1 is selected. -/
theorem c1_first_substring_match_wins
    (pre post : List (String × String)) (k p category : String)
    (hpre : ∀ e ∈ pre, mapping_entry_matches category e = false)
    (hk : pyLower k = normalized_category category) :
    find_module_path (pre ++ (k, p) :: post) category = some p := by
  induction pre with
  | nil =>
    have hmatch : mapping_entry_matches category (k, p) = true := by
      simp only [mapping_entry_matches]
      rw [hk]
      simp [pyInStr_self]
    simp [find_module_path, List.find?, hmatch]
  | cons e pre ih =>
    have he : mapping_entry_matches category e = false :=
      hpre e (List.mem_cons_self e pre)
    have ih' := ih (fun e' h' => hpre e' (List.mem_cons_of_mem e h'))
    simp only [find_module_path, List.cons_append, List.find?, he] at ih' ⊢
    exact ih'

/-- C1 (witness): the spec's own example, resolved through the amended
theorem with an empty earlier segment. -/
theorem c1_first_substring_match_witness :
    find_module_path [("agenda", "H1"), ("contacto", "H2")] "AGENDA " =
      some "H1" :=
  c1_first_substring_match_wins [] [("contacto", "H2")] "agenda" "H1" "AGENDA "
    (fun _ h => absurd h (List.not_mem_nil _)) rfl

/-- C9: `route_to_module` reports a boolean: it returns `True` exactly when a
truthy module path was selected and the handler invocation returned without
raising; import failures, missing functions and handler exceptions (the three
`except` clauses) all yield `False`, and no exception propagates (the
embedding is total: every exception branch of the source is a `False`
return). -/
theorem c9_route_reports_boolean
    (handlers : String → HandlerOutcome)
    (module_mapping : List (String × String)) (default_module : Option String)
    (category : String) :
    route_to_module handlers module_mapping default_module category = true ↔
      ∃ p b, select_module_path module_mapping default_module category = some p
        ∧ p ≠ "" ∧ handlers p = HandlerOutcome.returns b := by
  unfold route_to_module
  cases h : select_module_path module_mapping default_module category with
  | none => simp
  | some p =>
    by_cases hp : p = ""
    · subst hp; simp
    · have hbeq : (p == "") = false := by simp [hp]
      simp only [hbeq, Bool.false_eq_true, if_false]
      cases hh : handlers p with
      | importError => simp [hp, hh]
      | attrError => simp [hp, hh]
      | raises => simp [hp, hh]
      | returns b => simp [hp, hh]

/-- C10 (counterexample): a whitespace-only category does make the scan pick
the first mapping entry, but when that entry's module path is the empty
string the `if not module_path` fallback still routes to the configured
default module, so the claim's "never falls through to the default" fails. -/
theorem c10_empty_path_falls_to_default_counterexample :
    find_module_path [("agenda", "")] " " = some "" ∧
    select_module_path [("agenda", "")]
      (some "jassist.diario.process_entry") " " =
      some "jassist.diario.process_entry" := ⟨rfl, rfl⟩

/-- C10 (amended): for a category that normalizes to the empty string, the
scan selects the first mapping entry (the empty string is a substring of
every key); provided that entry's module path is non-empty, the selection is
used and the default module is never consulted. -/
theorem c10_whitespace_category_first_entry
    (k p : String) (rest : List (String × String))
    (default_module : Option String) (category : String)
    (hcat : normalized_category category = "") (hp : p ≠ "") :
    find_module_path ((k, p) :: rest) category = some p ∧
    select_module_path ((k, p) :: rest) default_module category = some p := by
  have hmatch : mapping_entry_matches category (k, p) = true := by
    simp only [mapping_entry_matches]
    rw [hcat]
    have : pyInStr "" (pyLower k) = true := listContainsSub_nil_eq_true _
    simp [this]
  have hfind : find_module_path ((k, p) :: rest) category = some p := by
    simp [find_module_path, List.find?, hmatch]
  refine ⟨hfind, ?_⟩
  simp only [select_module_path, hfind]
  have hbeq : (p == "") = false := by simp [hp]
  simp [hbeq]

/-- C10 (witness): a concrete whitespace-only category against the default
router mapping resolves to the first entry, not to the default module. -/
theorem c10_whitespace_category_witness :
    find_module_path
        [("agenda", "jassist.agenda.process_entry"),
         ("contacto", "jassist.contactos.process_entry")] "   " =
      some "jassist.agenda.process_entry" ∧
    select_module_path
        [("agenda", "jassist.agenda.process_entry"),
         ("contacto", "jassist.contactos.process_entry")]
        (some "jassist.diario.process_entry") "   " =
      some "jassist.agenda.process_entry" :=
  c10_whitespace_category_first_entry "agenda" "jassist.agenda.process_entry"
    [("contacto", "jassist.contactos.process_entry")]
    (some "jassist.diario.process_entry") "   " rfl (by decide)

/-! ## Claims about `run_assistant` -/

/-- Unfolding one iteration of the retry loop. -/
theorem run_retry_loop_succ (env : RunEnv) (thread_id assistant_id : String)
    (poll_interval timeout attempt fuel : Nat) (last : Option AttemptError) :
    run_retry_loop env thread_id assistant_id poll_interval timeout attempt
      (fuel + 1) last =
    match run_attempt env attempt poll_interval timeout with
    | Except.ok r =>
      (RunResult.success r,
       [RunAction.runCreate thread_id assistant_id,
        RunAction.msgList thread_id])
    | Except.error e =>
      let next := run_retry_loop env thread_id assistant_id poll_interval
        timeout (attempt + 1) fuel (some e)
      (next.1, RunAction.runCreate thread_id assistant_id :: next.2) := rfl

/-- The environment on which C2's failing run is evaluated: the message post
succeeds, every run starts, and every poll reports `in_progress`, so no
terminal status is ever reached. -/
def envTimeout : RunEnv :=
  { message_create_ok := true
    run_create_ok := fun _ => true
    run_status := fun _ _ => "in_progress"
    thread_messages := fun _ => [] }

/-- C2: the claim fails on the code.  With `max_retries = 1`,
`poll_interval = 1` and `timeout = 3`, a run whose status never reaches a
terminal state does raise `TimeoutError` inside the attempt, but the
`except (RunError, ThreadError, TimeoutError)` clause catches it, retries the
attempt, and after exhausting retries wraps the `TimeoutError` in
`RunError("All run attempts failed: ...")`: the caller sees a `RunError`,
never a `TimeoutError`, contradicting both the claim and the function's own
docstring and `should be re-raised` comment. -/
theorem c2_timeout_is_retried_and_wrapped :
    (run_assistant envTimeout "p" "th" "as" 1 1 3).1 =
      RunResult.runErrorAllFailed (AttemptError.timeoutErr 3) ∧
    ∀ t, (run_assistant envTimeout "p" "th" "as" 1 1 3).1 ≠
      RunResult.timeoutError t := by
  refine ⟨rfl, ?_⟩
  intro t h
  rw [show (run_assistant envTimeout "p" "th" "as" 1 1 3).1 =
      RunResult.runErrorAllFailed (AttemptError.timeoutErr 3) from rfl] at h
  exact RunResult.noConfusion h

/-- C3: with `max_retries = 1`, if attempt 0 fails with a `RunError` and
attempt 1 completes with response text `t`, the call returns `t`; the trace
shows the user message is posted exactly once, before any run is started,
and both run starts use the same thread id and assistant id. -/
theorem c3_retry_returns_second_attempt_text (env : RunEnv)
    (prompt thread_id assistant_id : String) (poll_interval timeout : Nat)
    (st t : String)
    (hmsg : env.message_create_ok = true)
    (h0 : run_attempt env 0 poll_interval timeout =
      Except.error (AttemptError.runErr st))
    (h1 : run_attempt env 1 poll_interval timeout = Except.ok (some t)) :
    run_assistant env prompt thread_id assistant_id 1 poll_interval timeout =
      (RunResult.success (some t),
       [RunAction.msgCreate thread_id prompt,
        RunAction.runCreate thread_id assistant_id,
        RunAction.runCreate thread_id assistant_id,
        RunAction.msgList thread_id]) := by
  simp only [run_assistant, hmsg, if_true]
  rw [show (1 + 1 : Nat) = 0 + 1 + 1 from rfl]
  rw [run_retry_loop_succ, h0]
  simp only []
  rw [run_retry_loop_succ, h1]

/-- The environment of C3's witness: attempt 0 ends with status `failed`,
attempt 1 completes, and the message list then holds one assistant message
with one text part `"resp"`. -/
def envRetry : RunEnv :=
  { message_create_ok := true
    run_create_ok := fun _ => true
    run_status := fun a _ => if a == 0 then "failed" else "completed"
    thread_messages := fun _ => [⟨"assistant", [some "resp"]⟩] }

/-- C3 (witness): the retry scenario evaluated on a concrete environment. -/
theorem c3_retry_witness :
    run_assistant envRetry "p" "th" "as" 1 1 300 =
      (RunResult.success (some "resp"),
       [RunAction.msgCreate "th" "p", RunAction.runCreate "th" "as",
        RunAction.runCreate "th" "as", RunAction.msgList "th"]) :=
  c3_retry_returns_second_attempt_text envRetry "p" "th" "as" 1 300 "failed"
    "resp" rfl rfl rfl

/-- The environment of C8's counterexample: the run completes at once and the
message list holds one assistant message with two text parts. -/
def envTwoParts : RunEnv :=
  { message_create_ok := true
    run_create_ok := fun _ => true
    run_status := fun _ _ => "completed"
    thread_messages := fun _ => [⟨"assistant", [some "a", some "b"]⟩] }

/-- C8 (counterexample): when the first assistant message carries two text
parts `"a"` and `"b"`, `run_assistant` returns `"a"` — the first part only —
not the concatenation `"ab"` the claim requires. -/
theorem c8_no_concatenation_counterexample :
    (run_assistant envTwoParts "p" "th" "as" 1 1 3).1 =
      RunResult.success (some "a") ∧
    (run_assistant envTwoParts "p" "th" "as" 1 1 3).1 ≠
      RunResult.success (some "ab") := by
  refine ⟨rfl, ?_⟩
  intro h
  rw [show (run_assistant envTwoParts "p" "th" "as" 1 1 3).1 =
      RunResult.success (some "a") from rfl] at h
  simp at h

/-- C8 (amended): on a successful run, the returned text is the value of the
first text-bearing content part (in list order) of the first assistant-
authored message the message-list endpoint returns — a single part, not a
concatenation, and with no re-sorting by timestamp. -/
theorem c8_first_text_part_returned (env : RunEnv)
    (prompt thread_id assistant_id : String) (max_retries poll_interval
    timeout : Nat) (m : ThreadMessage) (rest : List ThreadMessage) (v : String)
    (hmsg : env.message_create_ok = true)
    (hrc : env.run_create_ok 0 = true)
    (hpoll : poll_phase (env.run_status 0) poll_interval timeout 0
      (timeout + 1) = PollOutcome.completed)
    (hlist : env.thread_messages 0 = m :: rest)
    (hrole : m.role = "assistant")
    (hpart : first_text_part m.content = some v) :
    (run_assistant env prompt thread_id assistant_id max_retries poll_interval
      timeout).1 = RunResult.success (some v) := by
  have hattempt : run_attempt env 0 poll_interval timeout =
      Except.ok (some v) := by
    simp only [run_attempt, hrc, if_true, hpoll, hlist]
    have hne : m.content ≠ [] := by
      intro hnil
      rw [hnil] at hpart
      exact Option.noConfusion hpart
    simp [extract_assistant_response, hrole, hne, hpart]
  simp only [run_assistant, hmsg, if_true]
  rw [show max_retries + 1 = max_retries + 1 from rfl, run_retry_loop_succ,
    hattempt]

/-- C8 (witness): the amended statement evaluated on the two-part
environment: the first part `"a"` is returned. -/
theorem c8_first_text_part_witness :
    (run_assistant envTwoParts "p" "th" "as" 1 1 3).1 =
      RunResult.success (some "a") :=
  c8_first_text_part_returned envTwoParts "p" "th" "as" 1 1 3
    ⟨"assistant", [some "a", some "b"]⟩ [] "a" rfl rfl rfl rfl rfl rfl

/-! ## Claims about `get_or_create_thread` -/

/-- C4: a stored thread id with a parseable creation timestamp older than
`retention_days` is rotated: a new remote thread is created and its id —
distinct from the stored one, since the remote service mints fresh ids — is
returned, even though the stored thread still verifies remotely. -/
theorem c4_retention_forces_new_thread (env : ThreadEnv)
    (assistant_name : String) (module_name : Option String)
    (config : List (String × String)) (thread_key : String)
    (retention_days : Int) (save_to_config : Bool) (tid ts : String)
    (created_at : Int)
    (htid : assocGet config (full_thread_key assistant_name thread_key) =
      some tid)
    (hne : tid ≠ "")
    (hverify : env.retrieve_ok tid = true)
    (hts : assocGet config
      (full_thread_key assistant_name thread_key ++ "_created_at") = some ts)
    (hparse : env.fromisoformat ts = some created_at)
    (hage : Int.fdiv (env.now - created_at) 86400 > retention_days)
    (hfresh : env.created_thread_id ≠ tid) :
    (get_or_create_thread env assistant_name module_name config thread_key
      retention_days save_to_config).thread_id = env.created_thread_id ∧
    (get_or_create_thread env assistant_name module_name config thread_key
      retention_days save_to_config).thread_id ≠ tid := by
  have hbeq : (tid == "") = false := by simp [hne]
  have hrec : thread_needs_recreation env config
      (full_thread_key assistant_name thread_key)
      (full_thread_key assistant_name thread_key ++ "_created_at")
      retention_days = true := by
    simp only [thread_needs_recreation, htid, hbeq, Bool.false_eq_true,
      if_false, hverify, if_true, hts, hparse]
    exact decide_eq_true hage
  have hmain : (get_or_create_thread env assistant_name module_name config
      thread_key retention_days save_to_config).thread_id =
      env.created_thread_id := by
    simp only [get_or_create_thread, hrec, if_true]
    cases save_to_config <;> rfl
  exact ⟨hmain, by rw [hmain]; exact hfresh⟩

/-- The clock and remote service of the thread witnesses: the stored thread
`thread_old` still verifies, its creation timestamp parses to the epoch, and
`now` is 40 days later, beyond the 30-day retention horizon. -/
def envThread : ThreadEnv :=
  { retrieve_ok := fun _ => true
    created_thread_id := "thread_new"
    fromisoformat := fun s =>
      if s == "2024-01-01T00:00:00" then some 0 else none
    now := 40 * 86400
    now_iso := "2024-02-10T00:00:00" }

/-- The stored config of the thread witnesses: slot `default` of assistant
`Asst` holds `thread_old`, created at the epoch. -/
def cfgThread : List (String × String) :=
  [("thread_id_asst_default", "thread_old"),
   ("thread_id_asst_default_created_at", "2024-01-01T00:00:00")]

/-- C4 (witness): the 40-day-old slot is rotated to `thread_new`. -/
theorem c4_retention_witness :
    (get_or_create_thread envThread "Asst" (some "mod") cfgThread "default"
      30 true).thread_id = "thread_new" ∧
    (get_or_create_thread envThread "Asst" (some "mod") cfgThread "default"
      30 true).thread_id ≠ "thread_old" :=
  c4_retention_forces_new_thread envThread "Asst" (some "mod") cfgThread
    "default" 30 true "thread_old" "2024-01-01T00:00:00" 0 rfl (by decide)
    rfl rfl rfl (by decide) (by decide)

/-- C5: a call with `save_to_config = False` that creates a new thread
returns the freshly created id, leaves the in-memory config dict exactly as
it was (no thread-id key, no `_created_at` key, no other entry touched) and
never writes the module's backing file. -/
theorem c5_ephemeral_thread_not_persisted (env : ThreadEnv)
    (assistant_name : String) (module_name : Option String)
    (config : List (String × String)) (thread_key : String)
    (retention_days : Int)
    (hrec : thread_needs_recreation env config
      (full_thread_key assistant_name thread_key)
      (full_thread_key assistant_name thread_key ++ "_created_at")
      retention_days = true) :
    get_or_create_thread env assistant_name module_name config thread_key
      retention_days false =
    { thread_id := env.created_thread_id, config := config
      wrote_config_file := false } := by
  simp [get_or_create_thread, hrec]

/-- C5 (witness): the ephemeral rotation of the 40-day-old slot changes
nothing in the config and writes no file. -/
theorem c5_ephemeral_witness :
    get_or_create_thread envThread "Asst" (some "mod") cfgThread "default"
      30 false =
    { thread_id := "thread_new", config := cfgThread
      wrote_config_file := false } :=
  c5_ephemeral_thread_not_persisted envThread "Asst" (some "mod") cfgThread
    "default" 30 rfl

/-! ## Claims about `parse_classification_result` -/

/-- C6: when the (fence-stripped) input parses to a JSON object whose
`classifications` entry is a non-empty array whose first element is an object
carrying `category`, the result is built from that first element alone —
its `category`, its `text` (defaulting to the empty string) and the whole
parsed structure under `original_data` — for every tail of the array. -/
theorem c6_fenced_json_classifications_first_entry (s : String)
    (fields efields : List (String × Json)) (rest : List Json) (c : Json)
    (hjson : json_loads (strip_json_fence s) = some (Json.obj fields))
    (hclass : assocGet fields "classifications" =
      some (Json.arr (Json.obj efields :: rest)))
    (hcat : assocGet efields "category" = some c) :
    parse_classification_result s =
      some (Json.obj [("category", c),
        ("text", (assocGet efields "text").getD (Json.str "")),
        ("original_data", Json.obj fields)]) := by
  simp only [parse_classification_result, hjson, classify_json_data, hclass,
    hcat]

/-- C6 (witness): the spec's fenced example — the fence is stripped, the JSON
parsed, and the first classification entry yields category `"agenda"` and
text `"x"`. -/
theorem c6_fenced_json_witness :
    parse_classification_result
      "```json\n\x7b\"classifications\":[\x7b\"category\":\"agenda\",\"text\":\"x\"\x7d]\x7d\n```" =
    some (Json.obj [("category", Json.str "agenda"), ("text", Json.str "x"),
      ("original_data", Json.obj [("classifications", Json.arr
        [Json.obj [("category", Json.str "agenda"),
                   ("text", Json.str "x")]])])]) :=
  c6_fenced_json_classifications_first_entry _
    [("classifications", Json.arr [Json.obj [("category", Json.str "agenda"),
      ("text", Json.str "x")]])]
    [("category", Json.str "agenda"), ("text", Json.str "x")] []
    (Json.str "agenda") rfl rfl rfl

/-- C7 (counterexample): the input `"Categoria:"` is not valid JSON and its
only line yields the category-bearing key `categoria` — present, but with an
empty value — and the parse returns `None`: no `category` field of any
result is populated, so presence of a key alone is not enough. -/
theorem c7_empty_value_counterexample :
    line_data "Categoria:" = [("categoria", "")] ∧
    parse_classification_result "Categoria:" = none := ⟨rfl, rfl⟩

/-- C7 (amended): for input that is not valid JSON (and carries no
```` ```json ```` fence), each line with a colon is split at its first colon
into a stripped, lowercased key and a stripped value; if the first present
key among `category`, `type`, `classificação`, `categoria`, `tipo` is `k`
with a non-empty value `v` and no `category` key was parsed directly, the
result's canonical `category` field is `v`. -/
theorem c7_line_text_category (s k v : String)
    (hfence : strip_json_fence s = s)
    (hjson : json_loads s = none)
    (hfind : category_fields.find?
      (fun f => (assocGet (line_data s) f).isSome) = some k)
    (hnocat : assocGet (line_data s) "category" = none)
    (hval : assocGet (line_data s) k = some v)
    (hne : v ≠ "") :
    parse_classification_result s =
      some (Json.obj ((assocSet (line_data s) "category" v).map
        (fun p => (p.1, Json.str p.2)))) ∧
    assocGet (assocSet (line_data s) "category" v) "category" = some v := by
  have hget : assocGet (assocSet (line_data s) "category" v) "category" =
      some v := assocGet_assocSet_same _ _ _
  have hbeq : (v == "") = false := by simp [hne]
  refine ⟨?_, hget⟩
  simp only [parse_classification_result, hfence, hjson, parse_line_text,
    apply_category_priority, hfind, hnocat, Option.isSome_none,
    Bool.false_eq_true, if_false, hval, Option.getD_some, hget, hbeq]

/-- C7 (witness): the spec's line-text example resolves to category
`"tarefa"`. -/
theorem c7_line_text_witness :
    parse_classification_result "Categoria: tarefa\nOutro: valor" =
      some (Json.obj [("categoria", Json.str "tarefa"),
        ("outro", Json.str "valor"), ("category", Json.str "tarefa")]) ∧
    assocGet (assocSet (line_data "Categoria: tarefa\nOutro: valor")
      "category" "tarefa") "category" = some "tarefa" :=
  c7_line_text_category "Categoria: tarefa\nOutro: valor" "categoria"
    "tarefa" rfl rfl rfl rfl rfl (by decide)
